import Mathlib

/-!
Verification of the Tamagotchi turn-resolution engine
(src/Tamagotchi/tamagotchi.py), shallowly embedded in Lean.
Python float-free integer arithmetic is modelled with Int; each mutating
Python function becomes a pure function from pet state to pet state.
-/

/-- The pet dictionary built by make_pet: nine fields. -/
structure Pet where
  name : String
  hunger : Int
  happiness : Int
  energy : Int
  health : Int
  turn : Int
  alive : Bool
  sleeping : Bool
  sleep_turns_remaining : Int
deriving DecidableEq, Repr

/-- clamp(value, lo, hi) = max(lo, min(hi, value)). -/
def clamp (value lo hi : Int) : Int :=
  max lo (min hi value)

/-- make_pet: initial pet dict with all stats at starting values. -/
def make_pet (name : String) : Pet :=
  { name := name
    hunger := 80
    happiness := 80
    energy := 80
    health := 100
    turn := 1
    alive := true
    sleeping := false
    sleep_turns_remaining := 0 }

/-- decay_stats: per-turn decay of hunger (-5), energy (-4), happiness (-2),
each clamped to [0, 100], per the DECAY table. -/
def decay_stats (pet : Pet) : Pet :=
  { pet with
    hunger := clamp (pet.hunger - 5) 0 100
    energy := clamp (pet.energy - 4) 0 100
    happiness := clamp (pet.happiness - 2) 0 100 }

/-- check_health_drain: if hunger == 0, subtract 10 from health, clamp to [0, 100]. -/
def check_health_drain (pet : Pet) : Pet :=
  if pet.hunger = 0 then
    { pet with health := clamp (pet.health - 10) 0 100 }
  else
    pet

/-- check_death: if health <= 0, mark the pet as dead. -/
def check_death (pet : Pet) : Pet :=
  if pet.health ≤ 0 then
    { pet with alive := false }
  else
    pet

/-- apply_feed: add 30 to hunger, capped at 100. -/
def apply_feed (pet : Pet) : Pet :=
  { pet with hunger := clamp (pet.hunger + 30) 0 100 }

/-- apply_play: add 20 to happiness, subtract 15 from energy, both clamped. -/
def apply_play (pet : Pet) : Pet :=
  { pet with
    happiness := clamp (pet.happiness + 20) 0 100
    energy := clamp (pet.energy - 15) 0 100 }

/-- start_sleep: begin a sleep cycle of 3 automatic turns of rest. -/
def start_sleep (pet : Pet) : Pet :=
  { pet with sleeping := true, sleep_turns_remaining := 3 }

/-- process_sleep_turn: restore 25 energy (clamped), decrement the counter,
and wake up (clear sleeping, floor counter at 0) when it reaches 0. -/
def process_sleep_turn (pet : Pet) : Pet :=
  let pet1 := { pet with
    energy := clamp (pet.energy + 25) 0 100
    sleep_turns_remaining := pet.sleep_turns_remaining - 1 }
  if pet1.sleep_turns_remaining ≤ 0 then
    { pet1 with sleeping := false, sleep_turns_remaining := 0 }
  else
    pet1

/-- get_mood: derive the mood string from current stats. -/
def get_mood (pet : Pet) : String :=
  if pet.sleeping then "sleeping"
  else if pet.hunger ≥ 50 ∧ pet.happiness ≥ 50 ∧ pet.energy ≥ 30 then "happy"
  else if pet.hunger < 25 ∨ pet.happiness < 25 ∨ pet.energy < 20 then "sad"
  else "neutral"

/-- Modelled from the spec: the four-rule reference definition of getMood
given in the specification (section 4.2), used to compare against the
source get_mood. -/
def spec_mood (pet : Pet) : String :=
  if pet.sleeping then "sleeping"
  else if pet.hunger ≥ 50 ∧ pet.happiness ≥ 50 ∧ pet.energy ≥ 30 then "happy"
  else if pet.hunger < 25 ∨ pet.happiness < 25 ∨ pet.energy < 20 then "sad"
  else "neutral"

/-- The action tokens returned by prompt_action and dispatched in run_game. -/
inductive GameAction where
  | feed
  | play
  | sleep
  | check
  | save
  | quit
deriving DecidableEq, Repr

/-- The common tail of the run_game loop body: decay, starvation drain,
death check, and the turn increment guarded by alive. -/
def resolve_tail (pet : Pet) : Pet :=
  let p1 := decay_stats pet
  let p2 := check_health_drain p1
  let p3 := check_death p2
  if p3.alive then { p3 with turn := p3.turn + 1 } else p3

/-- One iteration of the run_game main loop on a living pet: if sleeping,
a sleep turn is processed and then the tail runs; otherwise the chosen
action is applied; save (and quit, which only persists and exits) skip
the tail entirely via continue. -/
def gameStep (pet : Pet) (action : GameAction) : Pet :=
  if pet.sleeping then
    resolve_tail (process_sleep_turn pet)
  else
    match action with
    | GameAction.feed => resolve_tail (apply_feed pet)
    | GameAction.play => resolve_tail (apply_play pet)
    | GameAction.sleep => resolve_tail (start_sleep pet)
    | GameAction.check => resolve_tail pet
    | GameAction.save => pet
    | GameAction.quit => pet

/-- The invariant that all four numeric stats lie in [0, 100]. -/
def statsInRange (pet : Pet) : Prop :=
  0 ≤ pet.hunger ∧ pet.hunger ≤ 100 ∧
  0 ≤ pet.happiness ∧ pet.happiness ≤ 100 ∧
  0 ≤ pet.energy ∧ pet.energy ≤ 100 ∧
  0 ≤ pet.health ∧ pet.health ≤ 100

instance (pet : Pet) : Decidable (statsInRange pet) := by
  unfold statsInRange
  infer_instance

/-- clamp to [0, 100] always lands in [0, 100]. -/
theorem clamp_mem (v : Int) : 0 ≤ clamp v 0 100 ∧ clamp v 0 100 ≤ 100 := by
  unfold clamp
  omega

/-- C1: for every pet state whose four numeric stats lie in [0,100], each
single core operation (decay_stats, check_health_drain, check_death,
apply_feed, apply_play, start_sleep, process_sleep_turn) leaves all four
stats in [0,100]. -/
theorem stats_in_range_preserved (pet : Pet) (h : statsInRange pet) :
    statsInRange (decay_stats pet) ∧ statsInRange (check_health_drain pet) ∧
    statsInRange (check_death pet) ∧ statsInRange (apply_feed pet) ∧
    statsInRange (apply_play pet) ∧ statsInRange (start_sleep pet) ∧
    statsInRange (process_sleep_turn pet) := by
  obtain ⟨h1, h2, h3, h4, h5, h6, h7, h8⟩ := h
  refine ⟨?_, ?_, ?_, ?_, ?_, ?_, ?_⟩ <;>
    simp only [statsInRange, decay_stats, check_health_drain, check_death, apply_feed,
      apply_play, start_sleep, process_sleep_turn, clamp] <;>
    (try split_ifs) <;> simp_all

/-- Witness for C1 at the freshly created pet. -/
theorem stats_in_range_preserved_witness :
    statsInRange (decay_stats (make_pet "Pip")) :=
  (stats_in_range_preserved (make_pet "Pip") (by decide)).1

/-- C2 counterexample: on the fresh pet, feeding and then resolving the turn
does NOT leave hunger at 100 — decay_stats runs after apply_feed and takes
hunger from 100 down to 95, so the claimed post-state is false. -/
theorem feed_turn_claim_false :
    ¬ ((gameStep (make_pet "Pip") GameAction.feed).hunger = 100 ∧
       (gameStep (make_pet "Pip") GameAction.feed).happiness = 78 ∧
       (gameStep (make_pet "Pip") GameAction.feed).energy = 76 ∧
       (gameStep (make_pet "Pip") GameAction.feed).health = 100 ∧
       (gameStep (make_pet "Pip") GameAction.feed).turn = 2 ∧
       (gameStep (make_pet "Pip") GameAction.feed).alive = true) := by
  decide

/-- C2 amended: from a fresh pet, applying feed and resolving one turn yields
hunger = 95 (80 + 30 clamped to 100, then minus 5 decay), happiness = 78,
energy = 76, health = 100, turn = 2, alive = true. -/
theorem feed_turn_resolution (name : String) :
    gameStep (make_pet name) GameAction.feed =
      { name := name, hunger := 95, happiness := 78, energy := 76,
        health := 100, turn := 2, alive := true, sleeping := false,
        sleep_turns_remaining := 0 } := by
  rfl

/-- C3: for a pet with hunger = 0 and health = 10, alive and not sleeping,
resolving one turn with the no-op check action drains health to 0, sets
alive to false, and leaves the turn counter at its pre-turn value. -/
theorem starving_turn_death (pet : Pet) (h0 : pet.hunger = 0) (h1 : pet.health = 10)
    (h2 : pet.alive = true) (h3 : pet.sleeping = false) :
    (gameStep pet GameAction.check).health = 0 ∧
    (gameStep pet GameAction.check).alive = false ∧
    (gameStep pet GameAction.check).turn = pet.turn := by
  simp [gameStep, resolve_tail, decay_stats, check_health_drain, check_death,
    clamp, h0, h1, h3]

/-- Witness for C3 at a concrete starving pet on turn 7. -/
theorem starving_turn_death_witness :
    (gameStep
      { name := "Pip", hunger := 0, happiness := 50, energy := 50, health := 10,
        turn := 7, alive := true, sleeping := false, sleep_turns_remaining := 0 }
      GameAction.check).alive = false :=
  (starving_turn_death _ rfl rfl rfl rfl).2.1

/-- C4: death is monotone — for every pet state with alive = false, each core
engine operation leaves alive = false, and only make_pet yields alive = true. -/
theorem death_is_terminal (pet : Pet) (name : String) (h : pet.alive = false) :
    (decay_stats pet).alive = false ∧ (check_health_drain pet).alive = false ∧
    (check_death pet).alive = false ∧ (apply_feed pet).alive = false ∧
    (apply_play pet).alive = false ∧ (start_sleep pet).alive = false ∧
    (process_sleep_turn pet).alive = false ∧ (make_pet name).alive = true := by
  refine ⟨?_, ?_, ?_, ?_, ?_, ?_, ?_, rfl⟩ <;>
    simp only [decay_stats, check_health_drain, check_death, apply_feed, apply_play,
      start_sleep, process_sleep_turn, make_pet] <;>
    (try split_ifs) <;> simp_all

/-- Witness for C4 at a concrete dead pet. -/
theorem death_is_terminal_witness :
    (decay_stats
      { name := "Pip", hunger := 0, happiness := 0, energy := 0, health := 0,
        turn := 5, alive := false, sleeping := false,
        sleep_turns_remaining := 0 }).alive = false :=
  (death_is_terminal _ "Pip" rfl).1

/-- C5: check_health_drain subtracts 10 from health, clamped to [0,100], when
hunger = 0, and leaves the entire state unchanged for every hunger not equal
to 0 (in particular for every hunger > 0). -/
theorem health_drain_iff_starving (pet : Pet) :
    (pet.hunger = 0 →
      check_health_drain pet = { pet with health := clamp (pet.health - 10) 0 100 }) ∧
    (pet.hunger ≠ 0 → check_health_drain pet = pet) := by
  constructor <;> intro h <;> simp [check_health_drain, h]

/-- Witness for C5: one starving pet whose health drops 10, and one fed pet
left fully unchanged. -/
theorem health_drain_iff_starving_witness :
    check_health_drain
      { name := "a", hunger := 0, happiness := 50, energy := 50, health := 10,
        turn := 1, alive := true, sleeping := false, sleep_turns_remaining := 0 } =
      { name := "a", hunger := 0, happiness := 50, energy := 50, health := 0,
        turn := 1, alive := true, sleeping := false, sleep_turns_remaining := 0 } ∧
    check_health_drain
      { name := "b", hunger := 5, happiness := 50, energy := 50, health := 90,
        turn := 1, alive := true, sleeping := false, sleep_turns_remaining := 0 } =
      { name := "b", hunger := 5, happiness := 50, energy := 50, health := 90,
        turn := 1, alive := true, sleeping := false, sleep_turns_remaining := 0 } :=
  ⟨(health_drain_iff_starving _).1 rfl, (health_drain_iff_starving _).2 (by decide)⟩

/-- C6: from any alive pet with energy = 40, start_sleep followed by three
process_sleep_turn calls yields energy = 100, sleeping = false, and
sleep_turns_remaining = 0. -/
theorem sleep_cycle_restores_energy (pet : Pet) (he : pet.energy = 40)
    (ha : pet.alive = true) :
    (process_sleep_turn (process_sleep_turn (process_sleep_turn (start_sleep pet)))).energy = 100 ∧
    (process_sleep_turn (process_sleep_turn (process_sleep_turn (start_sleep pet)))).sleeping = false ∧
    (process_sleep_turn (process_sleep_turn (process_sleep_turn (start_sleep pet)))).sleep_turns_remaining = 0 := by
  simp [process_sleep_turn, start_sleep, clamp, he]

/-- Witness for C6 at a concrete tired pet. -/
theorem sleep_cycle_restores_energy_witness :
    (process_sleep_turn (process_sleep_turn (process_sleep_turn (start_sleep
      { name := "Pip", hunger := 50, happiness := 50, energy := 40, health := 100,
        turn := 3, alive := true, sleeping := false,
        sleep_turns_remaining := 0 })))).energy = 100 :=
  (sleep_cycle_restores_energy _ rfl rfl).1

/-- C7: get_mood agrees with the four-rule reference definition of the spec on
every pet state; in particular hunger = 25, happiness = 50, energy = 30 while
awake gives neutral. -/
theorem get_mood_matches_spec :
    (∀ pet : Pet, get_mood pet = spec_mood pet) ∧
    get_mood
      { name := "Pip", hunger := 25, happiness := 50, energy := 30, health := 100,
        turn := 1, alive := true, sleeping := false,
        sleep_turns_remaining := 0 } = "neutral" :=
  ⟨fun _ => rfl, rfl⟩

/-- C8 counterexample: three consecutive decays from hunger = energy =
happiness = 80 give (65, 68, 74), not the claimed (65, 74, 72). -/
theorem triple_decay_claim_false :
    ¬ (((decay_stats (decay_stats (decay_stats
          { name := "Pip", hunger := 80, happiness := 80, energy := 80,
            health := 100, turn := 1, alive := true, sleeping := false,
            sleep_turns_remaining := 0 }))).hunger,
        (decay_stats (decay_stats (decay_stats
          { name := "Pip", hunger := 80, happiness := 80, energy := 80,
            health := 100, turn := 1, alive := true, sleeping := false,
            sleep_turns_remaining := 0 }))).energy,
        (decay_stats (decay_stats (decay_stats
          { name := "Pip", hunger := 80, happiness := 80, energy := 80,
            health := 100, turn := 1, alive := true, sleeping := false,
            sleep_turns_remaining := 0 }))).happiness) =
       ((65 : Int), (74 : Int), (72 : Int))) := by
  decide

/-- C8 amended: applying decay_stats three times to a state with hunger = 80,
energy = 80, happiness = 80 yields (hunger, energy, happiness) = (65, 68, 74). -/
theorem triple_decay_values (pet : Pet) (h1 : pet.hunger = 80)
    (h2 : pet.energy = 80) (h3 : pet.happiness = 80) :
    (decay_stats (decay_stats (decay_stats pet))).hunger = 65 ∧
    (decay_stats (decay_stats (decay_stats pet))).energy = 68 ∧
    (decay_stats (decay_stats (decay_stats pet))).happiness = 74 := by
  simp [decay_stats, clamp, h1, h2, h3]

/-- Witness for C8 at a concrete pet with all three decaying stats at 80. -/
theorem triple_decay_values_witness :
    (decay_stats (decay_stats (decay_stats
      { name := "Pip", hunger := 80, happiness := 80, energy := 80,
        health := 100, turn := 1, alive := true, sleeping := false,
        sleep_turns_remaining := 0 }))).hunger = 65 :=
  (triple_decay_values _ rfl rfl rfl).1

/-- C9: resolving a turn with the save action leaves the pet state unchanged
field for field — no decay, no health drain or death check, and no turn
increment. -/
theorem save_action_is_frame (pet : Pet) (h : pet.sleeping = false) :
    gameStep pet GameAction.save = pet := by
  simp [gameStep, h]

/-- Witness for C9 at a concrete awake pet. -/
theorem save_action_is_frame_witness :
    gameStep
      { name := "Pip", hunger := 33, happiness := 44, energy := 55, health := 66,
        turn := 9, alive := true, sleeping := false, sleep_turns_remaining := 0 }
      GameAction.save =
      { name := "Pip", hunger := 33, happiness := 44, energy := 55, health := 66,
        turn := 9, alive := true, sleeping := false, sleep_turns_remaining := 0 } :=
  save_action_is_frame _ rfl

/-- C10: get_mood depends only on the sleeping, hunger, happiness, and energy
fields — two states agreeing on those four fields get the same mood whatever
their health, alive, turn, or name — and get_mood never returns dead. -/
theorem get_mood_noninterference (p q : Pet) (hs : p.sleeping = q.sleeping)
    (hh : p.hunger = q.hunger) (hp : p.happiness = q.happiness)
    (he : p.energy = q.energy) :
    get_mood p = get_mood q ∧ get_mood p ≠ "dead" := by
  constructor
  · simp [get_mood, hs, hh, hp, he]
  · unfold get_mood
    split_ifs <;> decide

/-- Witness for C10: a healthy live pet and a health-zero dead pet with the
same four mood-relevant fields get the same mood, and it is not dead. -/
theorem get_mood_noninterference_witness :
    get_mood
      { name := "Pip", hunger := 60, happiness := 60, energy := 60, health := 100,
        turn := 1, alive := true, sleeping := false, sleep_turns_remaining := 0 } =
    get_mood
      { name := "Bob", hunger := 60, happiness := 60, energy := 60, health := 0,
        turn := 42, alive := false, sleeping := false, sleep_turns_remaining := 0 } ∧
    get_mood
      { name := "Pip", hunger := 60, happiness := 60, energy := 60, health := 100,
        turn := 1, alive := true, sleeping := false, sleep_turns_remaining := 0 } ≠ "dead" :=
  get_mood_noninterference _ _ rfl rfl rfl rfl
